import Mathlib

/-!
Verification development for the nova-agent underwriting pipeline.

This file gives a shallow embedding of the workflow-orchestration and
session-state core of the repository:

* `safe_model_call` (underwriting_agents.py, lines 119-164): the retry loop
  around one capability (LLM) invocation.  The opaque capability is modelled
  as a function `Nat → Attempt` giving the outcome of each attempt; the
  embedding additionally records how many attempts were actually made and
  which `time.sleep` durations were executed, so that retry-policy claims can
  be stated.
* `UnderwritingContext` (lines 167-245) with `add_agent_result`,
  `has_processed`, `get_agent_result`, `get_all_insights` and
  `save_agent_status` (the latter returning the status document it writes).
* The eight stage tools (lines 723-1330), unified into `specialistTool`
  (the seven specialist stages differ only in name-derived strings and in
  whether document analysis is re-run unconditionally) plus
  `summary_generation_tool` and `policy_generation_tool`.
* `generate_health_insurance_policy` (policy_generator.py, lines 294-441).
* `UnderwritingOrchestrator.manual_process_underwriting` and
  `process_underwriting` (underwriting_agents.py, lines 1403-1534).
* The status writers/readers of agentcore_main.py
  (`initialize_processing_status`, `update_processing_status`) and of run.py
  (`read_agent_status_from_s3`).

External effects are made explicit parameters: the document-analysis result,
the per-stage capability outcomes, agent availability, credential validity and
the S3 status object all appear in `RunParams` / `PipelineState`.  Timestamps
are abstracted to a `Nat` logical clock, and `time.sleep` calls are recorded
as a list of durations.  Python dictionaries keyed by stage name become
insertion-ordered association lists.
-/

namespace NovaAgent

/-! ### String helpers

`strContains h n` models the Python substring test `n in h`; `lowerStr`
models `str.lower()` (the keywords involved are ASCII, where the two case
foldings agree). -/

def infixOfAux (needle : List Char) : List Char → Bool
  | [] => needle.isEmpty
  | c :: t => needle.isPrefixOf (c :: t) || infixOfAux needle t

def strContains (haystack needle : String) : Bool :=
  infixOfAux needle.data haystack.data

def lowerStr (s : String) : String :=
  String.mk (s.data.map Char.toLower)

/-! ### safe_model_call (underwriting_agents.py, 119-164) -/

/-- Keyword test from line 148: the error message signals an
authentication/credential failure. -/
def isCredentialMsg (errorMsg : String) : Bool :=
  ["credentials", "unauthorized", "token", "expired"].any fun k =>
    strContains (lowerStr errorMsg) k

/-- Keyword test from line 150: the error message signals rate limiting. -/
def isRateLimitMsg (errorMsg : String) : Bool :=
  strContains (lowerStr errorMsg) "throttling" || strContains (lowerStr errorMsg) "rate"

/-- Keyword test from line 155: the error message signals a missing model. -/
def isNotFoundMsg (errorMsg : String) : Bool :=
  strContains (lowerStr errorMsg) "not found" ||
    strContains (lowerStr errorMsg) "does not exist"

/-- Outcome of one capability invocation `agent(prompt)`: either a text result
or a raised exception carrying its message. -/
inductive Attempt where
  | ok (text : String)
  | err (msg : String)
deriving DecidableEq, Repr

/-- Observable outcome of `safe_model_call`: the returned string, the number
of capability invocations actually performed, and the `time.sleep` durations
(in seconds) executed, in order. -/
structure CallOutcome where
  result : String
  calls : Nat
  sleeps : List Nat
deriving DecidableEq, Repr

/-- The `for attempt in range(max_retries)` loop of `safe_model_call`,
lines 127-164.  `fuel` is the number of loop iterations left
(`maxRetries - attempt`); when it reaches 0 the loop exits and the final
line 164 returns the exhaustion message. -/
def retryLoop (cap : Nat → Attempt) (maxRetries : Nat) : Nat → Nat → CallOutcome
  | _, 0 => ⟨"All retry attempts exhausted - please check your AWS configuration", 0, []⟩
  | attempt, fuel + 1 =>
    match cap attempt with
    | .ok r =>
      -- line 133: `if result and len(str(result)) > 10: return result`
      if r ≠ "" ∧ 10 < r.length then ⟨r, 1, []⟩
      else if attempt < maxRetries - 1 then
        -- line 138: `time.sleep(1); continue`
        let rest := retryLoop cap maxRetries (attempt + 1) fuel
        ⟨rest.result, rest.calls + 1, 1 :: rest.sleeps⟩
      else if r ≠ "" then ⟨r, 1, []⟩
      else ⟨"No response received from model", 1, []⟩
    | .err m =>
      if isCredentialMsg m then
        ⟨"Authentication Error: Your AWS session may have expired. Please refresh your credentials. Details: " ++ m, 1, []⟩
      else if isRateLimitMsg m then
        -- lines 151-154: `time.sleep(5 * (attempt + 1)); continue`
        let rest := retryLoop cap maxRetries (attempt + 1) fuel
        ⟨rest.result, rest.calls + 1, 5 * (attempt + 1) :: rest.sleeps⟩
      else if isNotFoundMsg m then
        ⟨"Model Error: Nova Pro model may not be available in your region. Details: " ++ m, 1, []⟩
      else if attempt < maxRetries - 1 then
        -- line 159: `time.sleep(2); continue`
        let rest := retryLoop cap maxRetries (attempt + 1) fuel
        ⟨rest.result, rest.calls + 1, 2 :: rest.sleeps⟩
      else
        ⟨"Model call failed after " ++ toString maxRetries ++ " attempts. Final error: " ++ m, 1, []⟩

/-- Model of `safe_model_call(agent, prompt, max_retries=3)`.  The pre-flight
`validate_aws_credentials` check of lines 123-125 is the `credsValid`
parameter. -/
def safe_model_call (credsValid : Bool) (cap : Nat → Attempt) (maxRetries : Nat) : CallOutcome :=
  if credsValid then retryLoop cap maxRetries 0 maxRetries
  else ⟨"Error: AWS credentials not available or expired. Please refresh your credentials.", 0, []⟩

/-! ### Data model -/

/-- One stage's recorded result (`agent_data[name]`, lines 183-187).  The
ISO timestamp is abstracted to a `Nat` logical clock value. -/
structure StageResult where
  analysis : String
  timestamp : Nat
  status : String
deriving DecidableEq, Repr

/-- The `processing_summary` block written by `save_agent_status`
(lines 215-220).  `pending_agents` is a Python int (may go negative) and
`completion_percentage` a float, modelled exactly by ℤ and ℚ (all values
arising here are dyadic, where float arithmetic is exact). -/
structure ProcessingSummary where
  total_agents : Nat
  completed_agents : Nat
  pending_agents : Int
  completion_percentage : ℚ
deriving DecidableEq, Repr

/-- The `policy_generated` block written back by the policy generator
(policy_generator.py, lines 397-407); location/file fields elided. -/
structure PolicyArtifact where
  status : String
  policy_number : String
deriving DecidableEq, Repr

/-- The durable per-session status document `agent_status.json`.  Fields that
only some writers produce are `Option`s. -/
structure StatusDoc where
  session_id : String
  status : String
  agents : List (String × StageResult)
  final_summary : Option String
  processing_summary : Option ProcessingSummary
  message : Option String
  policy_generated : Option PolicyArtifact
deriving DecidableEq, Repr

/-- Python dict assignment `d[k] = v`: replace in place, else append. -/
def setEntry (k : String) (v : StageResult) :
    List (String × StageResult) → List (String × StageResult)
  | [] => [(k, v)]
  | (k2, v2) :: t => if k2 = k then (k, v) :: t else (k2, v2) :: setEntry k v t

/-- Python dict lookup `d.get(k)`. -/
def lookupEntry (k : String) : List (String × StageResult) → Option StageResult
  | [] => none
  | (k2, v2) :: t => if k2 = k then some v2 else lookupEntry k t

/-- Python set insertion `s.add(k)` for a set represented as a
duplicate-free list. -/
def insertName (xs : List String) (k : String) : List String :=
  if xs.contains k then xs else xs ++ [k]

/-- In-memory per-session state (`UnderwritingContext`, lines 167-245).
`clock` abstracts `datetime.now()`. -/
structure UnderwritingContext where
  session_id : String
  agent_data : List (String × StageResult)
  processed_agents : List String
  document_content : String
  clock : Nat
deriving DecidableEq, Repr

/-- Line 195-196. -/
def UnderwritingContext.has_processed (ctx : UnderwritingContext) (agentName : String) : Bool :=
  ctx.processed_agents.contains agentName

/-- Line 192-193: `self.agent_data.get(name, {}).get('analysis', '')`. -/
def UnderwritingContext.get_agent_result (ctx : UnderwritingContext) (agentName : String) : String :=
  ((lookupEntry agentName ctx.agent_data).map StageResult.analysis).getD ""

/-- Line 198-199: the name → analysis mapping over all recorded agents. -/
def UnderwritingContext.get_all_insights (ctx : UnderwritingContext) : List (String × String) :=
  ctx.agent_data.map fun e => (e.1, e.2.analysis)

/-- Lines 215-220 of `save_agent_status`. -/
def mkProcessingSummary (n : Nat) : ProcessingSummary :=
  ⟨8, n, (8 : Int) - (n : Int), ((n : ℚ) / 8) * 100⟩

/-- The status document assembled and written by `save_agent_status`
(lines 201-238).  The S3 put itself is handled by the caller
(`addAgentResultS`); write failures are logged and swallowed in the source. -/
def UnderwritingContext.save_agent_status (ctx : UnderwritingContext) : StatusDoc :=
  { session_id := ctx.session_id
    status :=
      if ctx.processed_agents.contains "summary_generation" then "completed"
      else "in_progress"
    agents := ctx.agent_data
    final_summary := some (ctx.get_agent_result "summary_generation")
    processing_summary := some (mkProcessingSummary ctx.processed_agents.length)
    message := none
    policy_generated := none }

/-- Lines 182-190 (without the trailing persist, see `addAgentResultS`). -/
def UnderwritingContext.add_agent_result (ctx : UnderwritingContext)
    (agentName result : String) : UnderwritingContext :=
  { ctx with
    agent_data := setEntry agentName ⟨result, ctx.clock, "completed"⟩ ctx.agent_data
    processed_agents := insertName ctx.processed_agents agentName
    clock := ctx.clock + 1 }

/-- The in-memory context of one session together with that session's durable
`agent_status.json` object (`none` = object absent from S3). -/
structure PipelineState where
  ctx : UnderwritingContext
  store : Option StatusDoc
deriving DecidableEq, Repr

/-- `add_agent_result` including its final `save_agent_status()` call;
`save_agent_status` returns without writing when the session id is unset
(line 203-204). -/
def addAgentResultS (st : PipelineState) (agentName result : String) : PipelineState :=
  let ctx2 := st.ctx.add_agent_result agentName result
  { ctx := ctx2
    store := if ctx2.session_id = "" then st.store else some ctx2.save_agent_status }

/-- A brand-new context as produced by `UnderwritingContext.__init__` plus
`set_session_id` (lines 168-180). -/
def freshContext (sid : String) : UnderwritingContext :=
  ⟨sid, [], [], "", 0⟩

/-- `reset_context_for_session` (lines 257-261): replaces the in-memory
context; the S3 object is untouched. -/
def reset_context_for_session (sid : String) (st : PipelineState) : PipelineState :=
  { ctx := freshContext sid, store := st.store }

/-- Canonical stage order (config.py, lines 99-108). -/
def AGENT_WORKFLOW_SEQUENCE : List String :=
  ["data_intake", "document_verification", "medical_risk_assessment", "financial",
   "driving", "compliance", "lifestyle_behavioral", "summary_generation"]

/-! ### Stage tools (underwriting_agents.py, 723-1330)

Each `@tool` function is modelled as a state transformer.  The ambient
effects it consults become explicit parameters in `RunParams`. -/

/-- Environment of one pipeline run. -/
structure RunParams where
  /-- Result of `extract_session_id` on the tool input (`none` ⇒ every tool
  returns "Session ID not found"). -/
  sessionId : Option String
  /-- Outcome of the `validate_aws_credentials` pre-flight inside
  `safe_model_call` and `process_underwriting`. -/
  credsValid : Bool
  /-- Outcome of `document_processor.analyze_all_pdfs`: an error string, or
  the `combined_content` text. -/
  docAnalysis : Except String String
  /-- Per-stage capability behaviour: `cap stage i` is the outcome of the
  i-th attempt of that stage's `agent(prompt)` call. -/
  cap : String → Nat → Attempt
  /-- Whether the stage's agent object is non-`None`. -/
  agentAvailable : String → Bool
  /-- Outcome of `extract_policy_data_from_summary`: `none` on failure, or
  the extracted policy number. -/
  extractResult : Option String
  /-- Whether `generate_policy_pdf_document` succeeds. -/
  renderOk : Bool

/-- Observable outcome of one tool invocation: returned string, new state,
number of capability invocations, sleeps executed. -/
structure ToolOut where
  output : String
  state : PipelineState
  calls : Nat
  sleeps : List Nat

/-- The per-stage "already completed" sentinel returned by the idempotency
check at the top of each tool (e.g. line 732-733). -/
def alreadyMsg : String → String
  | "data_intake" => "Data intake already completed"
  | "document_verification" => "Document verification already completed"
  | "medical_risk_assessment" => "Medical risk assessment already completed"
  | "financial" => "Financial analysis already completed"
  | "driving" => "Driving analysis already completed"
  | "compliance" => "Compliance analysis already completed"
  | "lifestyle_behavioral" => "Lifestyle behavioral analysis already completed"
  | "summary_generation" => "Summary generation already completed"
  | _ => ""

/-- The per-stage analysis recorded when the stage agent object is `None`
(e.g. line 745-746). -/
def agentUnavailableMsg : String → String
  | "data_intake" => "Error: Data intake agent not available due to AWS credential issues. Please check your AWS configuration."
  | "document_verification" => "Error: Document verification agent not available due to AWS credential issues. Please check your AWS configuration."
  | "medical_risk_assessment" => "Error: Medical risk assessment agent not available due to AWS credential issues. Please check your AWS configuration."
  | "financial" => "Error: Financial analysis agent not available due to AWS credential issues. Please check your AWS configuration."
  | "driving" => "Error: Driving analysis agent not available due to AWS credential issues. Please check your AWS configuration."
  | "compliance" => "Error: Compliance analysis agent not available due to AWS credential issues. Please check your AWS configuration."
  | "lifestyle_behavioral" => "Error: Lifestyle behavioral analysis agent not available due to AWS credential issues. Please check your AWS configuration."
  | _ => ""

/-- Shared body of the seven specialist tools after the document content is
in place: invoke the capability via `safe_model_call` (or substitute the
unavailable-agent analysis), then `add_agent_result` + persist. -/
def runSpecialistBody (stage : String) (p : RunParams) (st : PipelineState) : ToolOut :=
  if p.agentAvailable stage then
    let out := safe_model_call p.credsValid (p.cap stage) 3
    ⟨out.result, addAgentResultS st stage out.result, out.calls, out.sleeps⟩
  else
    let analysis := agentUnavailableMsg stage
    ⟨analysis, addAgentResultS st stage analysis, 0, []⟩

/-- Unified model of the seven specialist stage tools (`data_intake_tool`
… `lifestyle_behavioral_analysis_tool`).  `isIntake` distinguishes
`data_intake_tool`, which re-runs `analyze_all_pdfs` unconditionally
(line 738), from the other six, which only do so when
`context.document_content` is empty (e.g. line 799-803).  The source wraps
each body in try/except returning an error string, so the tools never
raise. -/
def specialistTool (stage : String) (isIntake : Bool) (p : RunParams)
    (st : PipelineState) : ToolOut :=
  match p.sessionId with
  | none => ⟨"Session ID not found", st, 0, []⟩
  | some _ =>
    if st.ctx.has_processed stage then ⟨alreadyMsg stage, st, 0, []⟩
    else if isIntake ∨ st.ctx.document_content = "" then
      match p.docAnalysis with
      | .error e => ⟨"Document analysis failed: " ++ e, st, 0, []⟩
      | .ok content =>
        runSpecialistBody stage p
          { st with ctx := { st.ctx with document_content := content } }
    else runSpecialistBody stage p st

/-! ### Policy generator (policy_generator.py, 294-441) -/

/-- Line 337-338: decline/denial/failure keyword test on the lower-cased
final summary. -/
def containsDeclineKeyword (finalSummary : String) : Bool :=
  strContains (lowerStr finalSummary) "decline" ||
    strContains (lowerStr finalSummary) "denied" ||
    strContains (lowerStr finalSummary) "failed"

/-- Observable outcome of `generate_health_insurance_policy`: the `status`
field of the returned dict, its `error` field, whether the extraction
capability was invoked, whether a PDF was rendered, whether an S3 upload was
attempted, and the (possibly updated) durable status object. -/
structure PolicyGenOutcome where
  status : String
  error : String
  extractCalled : Bool
  rendered : Bool
  uploadAttempted : Bool
  store : Option StatusDoc
deriving DecidableEq, Repr

/-- Model of `generate_health_insurance_policy(session_id)`.  `store` is the
S3 `agent_status.json` object it reads (`none` = read fails).  Step 7's
upload failure is swallowed in the source; the step-8 write-back is applied
to the returned store (its own failure is also swallowed). -/
def generate_health_insurance_policy (p : RunParams) (store : Option StatusDoc) :
    PolicyGenOutcome :=
  match store with
  | none => ⟨"error", "Could not read agent_status.json", false, false, false, store⟩
  | some doc =>
    -- Step 2: overall status must be "completed", else skipped.
    if doc.status ≠ "completed" then ⟨"skipped", "", false, false, false, store⟩
    else
      -- Step 3: `final_summary = agent_status.get('final_summary', '')`.
      let fs := doc.final_summary.getD ""
      if fs = "" ∨ fs.length < 100 then
        ⟨"error", "No final summary available", false, false, false, store⟩
      -- Step 4: decline keywords ⇒ declined, nothing generated.
      else if containsDeclineKeyword fs then
        ⟨"declined", "", false, false, false, store⟩
      else
        -- Step 5: capability call extracting structured policy data.
        match p.extractResult with
        | none => ⟨"error", "Failed to extract policy data", true, false, false, store⟩
        | some policyNumber =>
          -- Step 6: render the PDF.
          if p.renderOk then
            -- Steps 7-8: upload, then write policy info back into the doc.
            let doc2 := { doc with policy_generated := some ⟨"completed", policyNumber⟩ }
            ⟨"success", "", true, true, true, some doc2⟩
          else ⟨"error", "Failed to generate Word document", true, false, false, store⟩

/-- Stand-in for `json.dumps(policy_result, indent=2)` recorded as the
`policy_generation` analysis on success (line 1188). -/
def policyResultJson (g : PolicyGenOutcome) : String :=
  "policy_result_status: " ++ g.status

/-- Stand-in for the generated `local_file` name
`policy_generated_<session>_<timestamp>.pdf`. -/
def policyLocalFile : String :=
  "policy_generated_session_timestamp.pdf"

/-- Model of `policy_generation_tool` (lines 1168-1210). -/
def policy_generation_tool (p : RunParams) (st : PipelineState) : ToolOut :=
  match p.sessionId with
  | none => ⟨"Session ID not found", st, 0, []⟩
  | some _ =>
    if ¬ st.ctx.has_processed "summary_generation" then
      ⟨"Summary generation must be completed before policy generation", st, 0, []⟩
    else
      let g := generate_health_insurance_policy p st.store
      let st1 : PipelineState := { st with store := g.store }
      if g.status = "success" then
        ⟨"Policy generated successfully: " ++ policyLocalFile,
         addAgentResultS st1 "policy_generation" (policyResultJson g), 0, []⟩
      else if g.status = "declined" then
        ⟨"Policy generation skipped: Underwriting declined",
         addAgentResultS st1 "policy_generation" "Underwriting declined - policy not generated",
         0, []⟩
      else if g.status = "skipped" then
        ⟨"Policy generation skipped: Underwriting not completed", st1, 0, []⟩
      else ⟨"Policy generation failed: " ++ g.error, st1, 0, []⟩

/-- Abbreviated body of the fallback HTML summary built when the summary
agent object is `None` (lines 1234-1262). -/
def summaryFallbackHtml (sessionId : String) (insights : List (String × String)) : String :=
  "<div class=\"underwriting-summary\"><h1>Trianz Insurance Underwriting & Policy Generation </h1>" ++
    "Session ID: " ++ sessionId ++
    " Agents Processed: " ++ toString insights.length ++ " of 8" ++
    String.join (insights.map fun e => "<h3>" ++ e.1 ++ "</h3><p>" ++ e.2 ++ "</p>") ++
    "</div>"

/-- Model of `summary_generation_tool` (lines 1211-1330), including the
auto-trigger of `policy_generation_tool` after a successful summary
(lines 1319-1324; its failure is caught and ignored, and the tool returns
the summary itself either way). -/
def summary_generation_tool (p : RunParams) (st : PipelineState) : ToolOut :=
  match p.sessionId with
  | none => ⟨"Session ID not found", st, 0, []⟩
  | some sid =>
    if st.ctx.has_processed "summary_generation" then
      ⟨"Summary generation already completed", st, 0, []⟩
    else
      let insights := st.ctx.get_all_insights
      if insights.length < 7 then
        ⟨"Insufficient specialist analyses available for summary generation", st, 0, []⟩
      else
        let body : String × Nat × List Nat :=
          if p.agentAvailable "summary_generation" then
            let out := safe_model_call p.credsValid (p.cap "summary_generation") 3
            (out.result, out.calls, out.sleeps)
          else (summaryFallbackHtml sid insights, 0, [])
        let st1 := addAgentResultS st "summary_generation" body.1
        let pres := policy_generation_tool p st1
        ⟨body.1, pres.state, body.2.1 + pres.calls, body.2.2 ++ pres.sleeps⟩

/-! ### Orchestrator (underwriting_agents.py, 1333-1534) -/

/-- The seven specialist stages iterated by `manual_process_underwriting`
before `summary_generation` (lines 1460-1469). -/
def specialistStages : List String :=
  ["data_intake", "document_verification", "medical_risk_assessment", "financial",
   "driving", "compliance", "lifestyle_behavioral"]

/-- Dispatch one named stage to its tool. -/
def runStage (stage : String) (p : RunParams) (st : PipelineState) : ToolOut :=
  if stage = "data_intake" then specialistTool stage true p st
  else if stage = "summary_generation" then summary_generation_tool p st
  else specialistTool stage false p st

/-- Sequentially thread the state through a list of stages (the tools never
raise, so the per-stage `except: continue` of lines 1480-1482 is vacuous). -/
def runStages (p : RunParams) : List String → PipelineState → PipelineState
  | [], st => st
  | stage :: rest, st => runStages p rest (runStage stage p st).state

/-- Model of `manual_process_underwriting` (lines 1455-1534): run the seven
specialist stages in canonical order, then return the summary tool's
output (the loop returns at `summary_generation`, line 1477-1478). -/
def manual_process_underwriting (p : RunParams) (st : PipelineState) :
    String × PipelineState :=
  let st7 := runStages p specialistStages st
  let out := summary_generation_tool p st7
  (out.output, out.state)

/-- Outcome of invoking the planner agent `self.orchestrator(input)`:
a returned result, or a raised exception, each with the state that the
planner's tool calls have produced so far. -/
inductive PlannerOutcome where
  | ok (result : String) (st : PipelineState)
  | raised (e : String) (st : PipelineState)

/-- Abbreviated credential-error HTML returned by `process_underwriting`
before any stage runs (lines 1409-1430). -/
def credentialErrorHtml (sessionId : String) : String :=
  "<div class=\"underwriting-summary\"><h1>Insurance Underwriting Summary - Credential Error</h1>Session ID: " ++
    sessionId ++ "</div>"

/-- Model of `UnderwritingOrchestrator.process_underwriting`
(lines 1403-1453): pre-flight credential check, context reset, then either
the planner agent (planned mode) or, when the planner is unavailable or
raises, `manual_process_underwriting` on the current state. -/
def process_underwriting (p : RunParams) (orchAvailable : Bool)
    (planner : PipelineState → PlannerOutcome) (sid : String) (st : PipelineState) :
    String × PipelineState :=
  if ¬ p.credsValid then (credentialErrorHtml sid, st)
  else
    let st1 := reset_context_for_session sid st
    if ¬ orchAvailable then manual_process_underwriting p st1
    else
      match planner st1 with
      | .ok r st2 => (r, st2)
      | .raised _ st2 => manual_process_underwriting p st2

/-! ### Other writers/readers of the durable status document -/

/-- A pending agents entry as written by `initialize_processing_status`
(agentcore_main.py, lines 265-272); empty timestamp modelled as clock 0. -/
def pendingEntry : StageResult :=
  ⟨"", 0, "pending"⟩

/-- The document written by `initialize_processing_status`
(agentcore_main.py, lines 256-293): status "starting", all 8 stages
pending. -/
def initialStatusDoc (sid : String) : StatusDoc :=
  { session_id := sid
    status := "starting"
    agents := AGENT_WORKFLOW_SEQUENCE.map fun n => (n, pendingEntry)
    final_summary := none
    processing_summary := some ⟨8, 0, 8, 0⟩
    message := none
    policy_generated := none }

/-- The fresh skeleton created by `update_processing_status` when no stored
document exists (agentcore_main.py, lines 440-446). -/
def emptyStatusDoc (sid : String) : StatusDoc :=
  ⟨sid, "", [], none, none, none, none⟩

/-- Model of `UnderwritingAgent.update_processing_status`
(agentcore_main.py, lines 430-467): read-modify-write that sets the `status`
and `message` fields unconditionally to its arguments, and `final_summary`
when the argument is non-empty. -/
def update_processing_status (sid : String) (store : Option StatusDoc)
    (status message finalSummary : String) : StatusDoc :=
  let base := store.getD (emptyStatusDoc sid)
  let base2 := { base with status := status, message := some message }
  if finalSummary = "" then base2 else { base2 with final_summary := some finalSummary }

/-- What S3 holds at `<session>/agent_status.json` from the reader's point
of view: a parseable document, unparseable bytes, no object, or a
non-NoSuchKey client error on the get. -/
inductive S3Stored where
  | validDoc (doc : StatusDoc)
  | corrupt
  | missing
  | otherError (code : String)

/-- The synthetic default state returned by run.py's status reader when the
object is absent (run.py, lines 192-205). -/
def defaultInitializingDoc (sid : String) : StatusDoc :=
  { session_id := sid
    status := "initializing"
    agents := AGENT_WORKFLOW_SEQUENCE.map fun n => (n, pendingEntry)
    final_summary := none
    processing_summary := none
    message := none
    policy_generated := none }

/-- Model of `read_agent_status_from_s3` (run.py, lines 180-207).
`Except.error` models a raised exception: `json.loads` failures are not
`ClientError`s and propagate (line 187), and non-NoSuchKey client errors are
re-raised (line 207); only a missing object yields the synthetic default. -/
def read_agent_status_from_s3 (sid : String) (stored : S3Stored) :
    Except String StatusDoc :=
  match stored with
  | .validDoc doc => .ok doc
  | .corrupt => .error "JSONDecodeError"
  | .missing => .ok (defaultInitializingDoc sid)
  | .otherError code => .error code

/-! ### Supporting lemmas -/

/-- An agent has a recorded `StageResult` with status "completed". -/
def lookupCompleted (n : String) (l : List (String × StageResult)) : Bool :=
  match lookupEntry n l with
  | some r => r.status == "completed"
  | none => false

/-- Reachability invariant of in-memory contexts: recorded results all carry
status "completed" and match the processed set (established by
`add_agent_result`, which is the only writer of either field). -/
def CtxInv (ctx : UnderwritingContext) : Prop :=
  (∀ e ∈ ctx.agent_data, e.2.status = "completed" ∧ e.1 ∈ ctx.processed_agents) ∧
  (∀ n ∈ ctx.processed_agents, lookupCompleted n ctx.agent_data = true)

theorem lookupEntry_setEntry_self (k : String) (v : StageResult) :
    ∀ l, lookupEntry k (setEntry k v l) = some v := by
  intro l
  induction l with
  | nil => simp [setEntry, lookupEntry]
  | cons e t ih =>
    by_cases h : e.1 = k
    · simp [setEntry, lookupEntry, h]
    · simp [setEntry, lookupEntry, h, ih]

theorem lookupEntry_setEntry_ne (k k2 : String) (v : StageResult) (h : k2 ≠ k) :
    ∀ l, lookupEntry k2 (setEntry k v l) = lookupEntry k2 l := by
  intro l
  induction l with
  | nil => simp [setEntry, lookupEntry, Ne.symm h]
  | cons e t ih =>
    by_cases he : e.1 = k
    · simp [setEntry, lookupEntry, he, Ne.symm h, h]
    · by_cases he2 : e.1 = k2
      · simp [setEntry, lookupEntry, he, he2, h]
      · simp [setEntry, lookupEntry, he, he2, ih]

theorem lookupEntry_mem {k : String} {v : StageResult} :
    ∀ {l}, lookupEntry k l = some v → (k, v) ∈ l := by
  intro l
  induction l with
  | nil => intro h; simp [lookupEntry] at h
  | cons e t ih =>
    obtain ⟨a, b⟩ := e
    intro h
    by_cases he : a = k
    · subst he
      simp [lookupEntry] at h
      subst h
      exact List.mem_cons_self _ _
    · simp [lookupEntry, he] at h
      exact List.mem_cons_of_mem _ (ih h)

theorem mem_keys_of_lookupCompleted {k : String} {l : List (String × StageResult)}
    (h : lookupCompleted k l = true) : k ∈ l.map Prod.fst := by
  unfold lookupCompleted at h
  cases hl : lookupEntry k l with
  | none => rw [hl] at h; simp at h
  | some r =>
    have := lookupEntry_mem hl
    exact List.mem_map.mpr ⟨(k, r), this, rfl⟩

theorem contains_append (xs ys : List String) (a : String) :
    (xs ++ ys).contains a = (xs.contains a || ys.contains a) := by
  induction xs with
  | nil => rfl
  | cons x t ih => simp [List.contains_cons, ih, Bool.or_assoc]

theorem mem_insertName (xs : List String) (n m : String) :
    m ∈ insertName xs n ↔ m ∈ xs ∨ m = n := by
  unfold insertName
  by_cases hx : xs.contains n
  · have hn : n ∈ xs := by simpa using hx
    simp only [if_pos hx]
    constructor
    · exact Or.inl
    · rintro (h | rfl)
      · exact h
      · exact hn
  · have hn : n ∉ xs := by simpa using hx
    simp [hn, List.mem_append]

theorem contains_insertName (xs : List String) (n m : String) :
    (insertName xs n).contains m = (xs.contains m || m == n) := by
  by_cases h1 : m ∈ xs <;> by_cases h2 : m = n <;>
    simp [mem_insertName, h1, h2]

theorem has_processed_addAgentResultS (st : PipelineState) (n a m : String) :
    (addAgentResultS st n a).ctx.has_processed m
      = (st.ctx.has_processed m || m == n) := by
  show (insertName st.ctx.processed_agents n).contains m
    = (st.ctx.processed_agents.contains m || m == n)
  exact contains_insertName _ _ _

theorem lookupCompleted_addAgentResultS_self (st : PipelineState) (n a : String) :
    lookupCompleted n (addAgentResultS st n a).ctx.agent_data = true := by
  simp [addAgentResultS, UnderwritingContext.add_agent_result, lookupCompleted,
    lookupEntry_setEntry_self]

theorem lookupCompleted_addAgentResultS_other (st : PipelineState) (n a m : String)
    (h : m ≠ n) :
    lookupCompleted m (addAgentResultS st n a).ctx.agent_data
      = lookupCompleted m st.ctx.agent_data := by
  simp [addAgentResultS, UnderwritingContext.add_agent_result, lookupCompleted,
    lookupEntry_setEntry_ne n m _ h]

theorem addAgentResultS_session_id (st : PipelineState) (n a : String) :
    (addAgentResultS st n a).ctx.session_id = st.ctx.session_id := rfl

theorem addAgentResultS_document_content (st : PipelineState) (n a : String) :
    (addAgentResultS st n a).ctx.document_content = st.ctx.document_content := rfl

theorem addAgentResultS_store (st : PipelineState) (n a : String)
    (h : st.ctx.session_id ≠ "") :
    (addAgentResultS st n a).store
      = some (st.ctx.add_agent_result n a).save_agent_status := by
  simp [addAgentResultS, UnderwritingContext.add_agent_result, h]

theorem save_agent_status_completed (ctx : UnderwritingContext)
    (h : ctx.processed_agents.contains "summary_generation" = true) :
    ctx.save_agent_status.status = "completed" := by
  have h2 : "summary_generation" ∈ ctx.processed_agents := by simpa using h
  simp [UnderwritingContext.save_agent_status, h2]

theorem runSpecialistBody_state (stage : String) (p : RunParams) (st : PipelineState) :
    ∃ a, (runSpecialistBody stage p st).state = addAgentResultS st stage a := by
  unfold runSpecialistBody
  by_cases h : p.agentAvailable stage = true
  · exact ⟨(safe_model_call p.credsValid (p.cap stage) 3).result, by simp [h]⟩
  · exact ⟨agentUnavailableMsg stage, by simp [h]⟩

theorem specialistTool_record (stage : String) (b : Bool) (p : RunParams)
    (st : PipelineState) (s c : String)
    (hs : p.sessionId = some s) (hd : p.docAnalysis = Except.ok c)
    (hnp : st.ctx.has_processed stage = false)
    (hc : st.ctx.document_content = "" ∨ st.ctx.document_content = c) :
    ∃ a, (specialistTool stage b p st).state
      = addAgentResultS { st with ctx := { st.ctx with document_content := c } } stage a := by
  have key : specialistTool stage b p st
      = runSpecialistBody stage p { st with ctx := { st.ctx with document_content := c } } := by
    unfold specialistTool
    rw [hs]
    simp only [hnp, Bool.false_eq_true, if_false]
    by_cases hb : b = true
    · simp only [hb, true_or, if_true]
      rw [hd]
    · rcases hc with hc0 | hc0
      · simp only [hc0, or_true, if_true]
        rw [hd]
      · by_cases hce : st.ctx.document_content = ""
        · simp only [hce, or_true, if_true]
          rw [hd]
        · have hbn : (b = true ∨ st.ctx.document_content = "") = False := by
            simp [hb, hce]
          simp only [hbn, if_false]
          have : ({ st.ctx with document_content := c } : UnderwritingContext) = st.ctx := by
            rw [← hc0]
          rw [this]
  rw [key]
  exact runSpecialistBody_state stage p _

theorem runStage_ne_summary (n : String) (hn : n ≠ "summary_generation")
    (p : RunParams) (st : PipelineState) :
    ∃ b, runStage n p st = specialistTool n b p st := by
  unfold runStage
  by_cases h : n = "data_intake"
  · exact ⟨true, by simp [h]⟩
  · exact ⟨false, by simp [h, hn]⟩

theorem runStages_spec (p : RunParams) (s c : String)
    (hs : p.sessionId = some s) (hd : p.docAnalysis = Except.ok c) :
    ∀ (names : List String) (st : PipelineState),
      (∀ n ∈ names, n ≠ "summary_generation") →
      (∀ n ∈ names, st.ctx.has_processed n = false) →
      names.Nodup →
      (st.ctx.document_content = "" ∨ st.ctx.document_content = c) →
      (∀ n ∈ names, lookupCompleted n (runStages p names st).ctx.agent_data = true) ∧
      (∀ n, lookupCompleted n st.ctx.agent_data = true →
        lookupCompleted n (runStages p names st).ctx.agent_data = true) ∧
      (∀ n, st.ctx.has_processed n = false → n ∉ names →
        (runStages p names st).ctx.has_processed n = false) ∧
      (runStages p names st).ctx.session_id = st.ctx.session_id := by
  intro names
  induction names with
  | nil =>
    intro st _ _ _ _
    exact ⟨by simp, fun n h => h, fun n h _ => h, rfl⟩
  | cons n rest ih =>
    intro st hsum hnp hnd hc
    obtain ⟨b, hb⟩ := runStage_ne_summary n (hsum n (by simp)) p st
    obtain ⟨a, ha⟩ := specialistTool_record n b p st s c hs hd (hnp n (by simp)) hc
    have hst1eq : (runStage n p st).state
        = addAgentResultS { st with ctx := { st.ctx with document_content := c } } n a := by
      rw [hb, ha]
    have hP : ∀ m, (runStage n p st).state.ctx.has_processed m
        = (st.ctx.has_processed m || m == n) := by
      intro m
      rw [hst1eq, has_processed_addAgentResultS]
      rfl
    have hC : (runStage n p st).state.ctx.document_content = c := by
      rw [hst1eq]
      rfl
    have hS : (runStage n p st).state.ctx.session_id = st.ctx.session_id := by
      rw [hst1eq]
      rfl
    have hLself : lookupCompleted n (runStage n p st).state.ctx.agent_data = true := by
      rw [hst1eq]
      exact lookupCompleted_addAgentResultS_self _ _ _
    have hLother : ∀ m, m ≠ n →
        lookupCompleted m (runStage n p st).state.ctx.agent_data
          = lookupCompleted m st.ctx.agent_data := by
      intro m hm
      rw [hst1eq, lookupCompleted_addAgentResultS_other _ _ _ _ hm]
    have hrest : ∀ m ∈ rest, (runStage n p st).state.ctx.has_processed m = false := by
      intro m hm
      have hmn : m ≠ n := fun hmn => (List.nodup_cons.mp hnd).1 (hmn ▸ hm)
      rw [hP m]
      simp [hnp m (List.mem_cons_of_mem _ hm), hmn]
    have hfold : runStages p (n :: rest) st = runStages p rest (runStage n p st).state := rfl
    obtain ⟨ih1, ih2, ih3, ih4⟩ :=
      ih (runStage n p st).state (fun m hm => hsum m (List.mem_cons_of_mem _ hm)) hrest
        (List.nodup_cons.mp hnd).2 (Or.inr hC)
    refine ⟨?_, ?_, ?_, ?_⟩
    · intro m hm
      rw [hfold]
      rcases List.mem_cons.mp hm with rfl | hm2
      · exact ih2 m hLself
      · exact ih1 m hm2
    · intro m hm
      rw [hfold]
      by_cases hmn : m = n
      · subst hmn
        exact ih2 m hLself
      · refine ih2 m ?_
        rw [hLother m hmn]
        exact hm
    · intro m hm hnin
      rw [hfold]
      have hmn : m ≠ n := fun hmn => hnin (hmn ▸ List.mem_cons_self n rest)
      refine ih3 m ?_ (fun hm2 => hnin (List.mem_cons_of_mem _ hm2))
      rw [hP m]
      simp [hm, hmn]
    · rw [hfold, ih4, hS]

theorem summary_tool_state (p : RunParams) (st : PipelineState) (s : String)
    (hs : p.sessionId = some s)
    (hnp : st.ctx.has_processed "summary_generation" = false)
    (hlen : 7 ≤ st.ctx.agent_data.length) :
    ∃ a, (summary_generation_tool p st).state
      = (policy_generation_tool p (addAgentResultS st "summary_generation" a)).state := by
  unfold summary_generation_tool
  rw [hs]
  have hlen2 : ¬ (st.ctx.get_all_insights.length < 7) := by
    unfold UnderwritingContext.get_all_insights
    rw [List.length_map]
    omega
  simp only [hnp, Bool.false_eq_true, if_false, hlen2]
  by_cases hav : p.agentAvailable "summary_generation" = true
  · simp only [hav, if_true]
    exact ⟨_, rfl⟩
  · simp only [hav, Bool.false_eq_true, if_false]
    exact ⟨_, rfl⟩

theorem generate_policy_store_status (p : RunParams) (d : StatusDoc)
    (hd : d.status = "completed") :
    ∃ d2, (generate_health_insurance_policy p (some d)).store = some d2
      ∧ d2.status = "completed" := by
  have hcond : ¬ (d.status ≠ "completed") := by simp [hd]
  unfold generate_health_insurance_policy
  simp only [if_neg hcond]
  by_cases h1 : (d.final_summary.getD "" = "" ∨ (d.final_summary.getD "").length < 100)
  · simp only [if_pos h1]
    exact ⟨d, rfl, hd⟩
  · simp only [if_neg h1]
    by_cases h2 : containsDeclineKeyword (d.final_summary.getD "") = true
    · simp only [if_pos h2]
      exact ⟨d, rfl, hd⟩
    · simp only [h2, Bool.false_eq_true, if_false]
      cases hex : p.extractResult with
      | none =>
        simp only [hex]
        exact ⟨d, rfl, hd⟩
      | some pn =>
        simp only [hex]
        by_cases hr : p.renderOk = true
        · simp only [hr, if_true]
          exact ⟨{ d with policy_generated := some ⟨"completed", pn⟩ }, rfl, hd⟩
        · simp only [hr, Bool.false_eq_true, if_false]
          exact ⟨d, rfl, hd⟩

theorem add_policy_preserves (st1 : PipelineState) (a : String)
    (hp : st1.ctx.has_processed "summary_generation" = true)
    (hsid : st1.ctx.session_id ≠ "") :
    (∃ d2, (addAgentResultS st1 "policy_generation" a).store = some d2
      ∧ d2.status = "completed") ∧
    (∀ m, lookupCompleted m st1.ctx.agent_data = true →
      lookupCompleted m (addAgentResultS st1 "policy_generation" a).ctx.agent_data = true) ∧
    (∀ m, st1.ctx.has_processed m = true →
      (addAgentResultS st1 "policy_generation" a).ctx.has_processed m = true) := by
  refine ⟨?_, ?_, ?_⟩
  · rw [addAgentResultS_store _ _ _ hsid]
    refine ⟨_, rfl, save_agent_status_completed _ ?_⟩
    show (insertName st1.ctx.processed_agents "policy_generation").contains
      "summary_generation" = true
    rw [contains_insertName]
    have h2 : "summary_generation" ∈ st1.ctx.processed_agents := by
      have : st1.ctx.processed_agents.contains "summary_generation" = true := hp
      simpa using this
    simp [h2]
  · intro m hm
    by_cases hmp : m = "policy_generation"
    · subst hmp
      exact lookupCompleted_addAgentResultS_self _ _ _
    · rw [lookupCompleted_addAgentResultS_other _ _ _ _ hmp]
      exact hm
  · intro m hm
    rw [has_processed_addAgentResultS]
    simp [hm]

theorem policy_tool_preserves (p : RunParams) (st : PipelineState) (s : String)
    (hs : p.sessionId = some s)
    (hp : st.ctx.has_processed "summary_generation" = true)
    (hsid : st.ctx.session_id ≠ "")
    (d : StatusDoc) (hstore : st.store = some d) (hd : d.status = "completed") :
    (∃ d2, (policy_generation_tool p st).state.store = some d2
      ∧ d2.status = "completed") ∧
    (∀ m, lookupCompleted m st.ctx.agent_data = true →
      lookupCompleted m (policy_generation_tool p st).state.ctx.agent_data = true) ∧
    (∀ m, st.ctx.has_processed m = true →
      (policy_generation_tool p st).state.ctx.has_processed m = true) := by
  unfold policy_generation_tool
  rw [hs]
  simp only [hp, not_true_eq_false, Bool.true_eq_false, if_false, hstore]
  obtain ⟨d2, hd2, hd2c⟩ := generate_policy_store_status p d hd
  by_cases h1 : (generate_health_insurance_policy p (some d)).status = "success"
  · simp only [h1, if_true]
    exact add_policy_preserves _ _ hp hsid
  · simp only [h1, if_false]
    by_cases h2 : (generate_health_insurance_policy p (some d)).status = "declined"
    · simp only [h2, if_true]
      exact add_policy_preserves _ _ hp hsid
    · simp only [h2, if_false]
      by_cases h3 : (generate_health_insurance_policy p (some d)).status = "skipped"
      · simp only [h3, if_true]
        exact ⟨⟨d2, hd2, hd2c⟩, fun m hm => hm, fun m hm => hm⟩
      · simp only [h3, if_false]
        exact ⟨⟨d2, hd2, hd2c⟩, fun m hm => hm, fun m hm => hm⟩

theorem retryLoop_calls_le (cap : Nat → Attempt) (maxRetries : Nat) :
    ∀ (fuel attempt : Nat), (retryLoop cap maxRetries attempt fuel).calls ≤ fuel := by
  intro fuel
  induction fuel with
  | zero => intro a; simp [retryLoop]
  | succ f ih =>
    intro a
    unfold retryLoop
    cases cap a with
    | ok r =>
      by_cases h1 : (r ≠ "" ∧ 10 < r.length)
      · simp [h1]
      · simp only [h1, if_false]
        by_cases h2 : a < maxRetries - 1
        · simp only [h2, if_true]
          have := ih (a + 1)
          show (retryLoop cap maxRetries (a + 1) f).calls + 1 ≤ f + 1
          omega
        · by_cases h3 : r ≠ "" <;> simp [h2, h3]
    | err m =>
      by_cases hc : isCredentialMsg m = true
      · simp [hc]
      · simp only [hc, Bool.false_eq_true, if_false]
        by_cases hr : isRateLimitMsg m = true
        · simp only [hr, if_true]
          have := ih (a + 1)
          show (retryLoop cap maxRetries (a + 1) f).calls + 1 ≤ f + 1
          omega
        · simp only [hr, Bool.false_eq_true, if_false]
          by_cases hn : isNotFoundMsg m = true
          · simp [hn]
          · simp only [hn, Bool.false_eq_true, if_false]
            by_cases h2 : a < maxRetries - 1
            · simp only [h2, if_true]
              have := ih (a + 1)
              show (retryLoop cap maxRetries (a + 1) f).calls + 1 ≤ f + 1
              omega
            · simp [h2]

/-- One-step unfolding equation for `retryLoop` with fuel left. -/
theorem retryLoop_step (cap : Nat → Attempt) (maxRetries attempt fuel : Nat) :
    retryLoop cap maxRetries attempt (fuel + 1)
      = match cap attempt with
        | .ok r =>
          if r ≠ "" ∧ 10 < r.length then ⟨r, 1, []⟩
          else if attempt < maxRetries - 1 then
            ⟨(retryLoop cap maxRetries (attempt + 1) fuel).result,
             (retryLoop cap maxRetries (attempt + 1) fuel).calls + 1,
             1 :: (retryLoop cap maxRetries (attempt + 1) fuel).sleeps⟩
          else if r ≠ "" then ⟨r, 1, []⟩
          else ⟨"No response received from model", 1, []⟩
        | .err m =>
          if isCredentialMsg m then
            ⟨"Authentication Error: Your AWS session may have expired. Please refresh your credentials. Details: " ++ m,
             1, []⟩
          else if isRateLimitMsg m then
            ⟨(retryLoop cap maxRetries (attempt + 1) fuel).result,
             (retryLoop cap maxRetries (attempt + 1) fuel).calls + 1,
             5 * (attempt + 1) :: (retryLoop cap maxRetries (attempt + 1) fuel).sleeps⟩
          else if isNotFoundMsg m then
            ⟨"Model Error: Nova Pro model may not be available in your region. Details: " ++ m, 1, []⟩
          else if attempt < maxRetries - 1 then
            ⟨(retryLoop cap maxRetries (attempt + 1) fuel).result,
             (retryLoop cap maxRetries (attempt + 1) fuel).calls + 1,
             2 :: (retryLoop cap maxRetries (attempt + 1) fuel).sleeps⟩
          else
            ⟨"Model call failed after " ++ toString maxRetries ++ " attempts. Final error: " ++ m,
             1, []⟩ := rfl

/-! ### Concrete fixtures used by witnesses and counterexamples -/

def sidW : String :=
  "session_2026-01-01_00-00-00-deadbeef"

def c10Summary : String :=
  "Executive underwriting review: the applicant satisfies every medical, financial, driving, compliance and lifestyle criterion, and standard coverage at the requested amount is approved."

/-- A run environment where everything succeeds. -/
def pC10 : RunParams :=
  { sessionId := some sidW
    credsValid := true
    docAnalysis := Except.ok "=== DOCUMENT: application.pdf === applicant details text"
    cap := fun stage _ =>
      if stage = "summary_generation" then Attempt.ok c10Summary
      else Attempt.ok "Stage analysis outcome: risk profile acceptable for this applicant"
    agentAvailable := fun _ => true
    extractResult := some "POL-USA-20260101-4242"
    renderOk := true }

/-- Like `pC10`, but the summary capability raises a generic error on every
attempt. -/
def pC8 : RunParams :=
  { pC10 with cap := fun stage _ =>
      if stage = "summary_generation" then Attempt.err "upstream outage"
      else Attempt.ok "Stage analysis outcome: risk profile acceptable for this applicant" }

/-- Like `pC10`, but the financial capability raises a generic error on
every attempt. -/
def pC2 : RunParams :=
  { pC10 with cap := fun stage _ =>
      if stage = "financial" then Attempt.err "upstream outage"
      else if stage = "summary_generation" then Attempt.ok c10Summary
      else Attempt.ok "Stage analysis outcome: risk profile acceptable for this applicant" }

/-- Like `pC10`, but every capability call raises a credential error. -/
def pCred : RunParams :=
  { pC10 with cap := fun _ _ => Attempt.err "expired token" }

def st0 : PipelineState :=
  ⟨freshContext sidW, none⟩

def stIntakeDone : PipelineState :=
  addAgentResultS st0 "data_intake"
    "Comprehensive intake analysis of the submitted documents"

def declinedSummary : String :=
  "After thorough review of all specialist assessments the committee has declined this application for coverage; the applicant may reapply after twelve months with updated documentation."

/-- A completed status document whose terminal analysis is a long declined
summary. -/
def declinedDoc : StatusDoc :=
  { session_id := sidW
    status := "completed"
    agents := [("summary_generation", ⟨declinedSummary, 8, "completed"⟩)]
    final_summary := some declinedSummary
    processing_summary := some (mkProcessingSummary 8)
    message := none
    policy_generated := none }

/-- A state whose summary stage is processed and whose stored document is
`declinedDoc`. -/
def stC8W : PipelineState :=
  { addAgentResultS st0 "summary_generation" declinedSummary with
    store := some declinedDoc }

def capShort : Nat → Attempt :=
  fun _ => Attempt.ok "short"

def capEmpty : Nat → Attempt :=
  fun _ => Attempt.ok ""

def capRate : Nat → Attempt :=
  fun i => if i = 0 then Attempt.err "throttling detected"
    else Attempt.ok "a sufficiently long analysis result"

def capGeneric : Nat → Attempt :=
  fun _ => Attempt.err "unexpected upstream outage"

def capCred : Nat → Attempt :=
  fun _ => Attempt.err "expired token"

/-! ### Claim theorems -/

/-- C1 (counterexample): invoking `data_intake_tool` a second time on a
session whose data_intake stage is already completed returns the fixed
sentinel "Data intake already completed", which is NOT the cached analysis
stored in the session's `StageResult` — refuting the claim that the second
call returns the cached analysis. -/
theorem second_invocation_not_cached_analysis :
    stIntakeDone.ctx.has_processed "data_intake" = true ∧
    (specialistTool "data_intake" true pC10 stIntakeDone).output
      = "Data intake already completed" ∧
    (specialistTool "data_intake" true pC10 stIntakeDone).output
      ≠ stIntakeDone.ctx.get_agent_result "data_intake" := by
  refine ⟨by decide, by decide, by decide⟩

/-- C1 (amended): for every stage of the canonical sequence, invoking the
stage's tool when its `StageResult` is already completed returns that
stage's fixed "already completed" sentinel string (not the cached analysis),
leaves the whole pipeline state — including the stored `StageResult` —
identical, and performs zero capability invocations. -/
theorem second_invocation_sentinel (stage : String) (p : RunParams)
    (st : PipelineState) (s : String) (hs : p.sessionId = some s)
    (hstage : stage ∈ AGENT_WORKFLOW_SEQUENCE)
    (hp : st.ctx.has_processed stage = true) :
    runStage stage p st = ⟨alreadyMsg stage, st, 0, []⟩ := by
  have hmem := hstage
  simp only [AGENT_WORKFLOW_SEQUENCE, List.mem_cons, List.not_mem_nil, or_false] at hmem
  rcases hmem with rfl | rfl | rfl | rfl | rfl | rfl | rfl | rfl <;>
    simp [runStage, specialistTool, summary_generation_tool, hs, hp, alreadyMsg]

/-- C1 (witness for the amended theorem) at the concrete post-intake state. -/
theorem second_invocation_sentinel_witness :
    runStage "data_intake" pC10 stIntakeDone
      = ⟨alreadyMsg "data_intake", stIntakeDone, 0, []⟩ :=
  second_invocation_sentinel "data_intake" pC10 stIntakeDone sidW rfl
    (by decide) (by decide)

/-- C3: when the planner agent raises immediately upon invocation (planned
mode fails before completion), `process_underwriting` returns exactly the
result of `manual_process_underwriting` — the deterministic sequential run
of the 8 canonical stages — on the same reset state: the fallback is
unconditional and the final result is identical to a direct sequential
run. -/
theorem planner_failure_falls_back_sequential (p : RunParams) (sid e : String)
    (st : PipelineState) (hcreds : p.credsValid = true) :
    process_underwriting p true (fun s1 => PlannerOutcome.raised e s1) sid st
      = manual_process_underwriting p (reset_context_for_session sid st) := by
  unfold process_underwriting
  simp [hcreds]

/-- C3 (witness): the fallback equation at a concrete state and planner. -/
theorem planner_failure_falls_back_sequential_witness :
    process_underwriting pC10 true (fun s1 => PlannerOutcome.raised "planner exploded" s1)
        sidW st0
      = manual_process_underwriting pC10 (reset_context_for_session sidW st0) :=
  planner_failure_falls_back_sequential pC10 sidW "planner exploded" st0 rfl

/-- C4: an error whose message carries an authentication/credential keyword
terminates the retry loop immediately (exactly one capability invocation, no
backoff sleeps) with the descriptive "Authentication Error..." string, and
the stage then records a `StageResult` with status "completed" (never
"failed") whose analysis is that error-describing text. -/
theorem credential_error_degrades_stage :
    (∀ (cap : Nat → Attempt) (maxRetries attempt fuel : Nat) (m : String),
      cap attempt = Attempt.err m → isCredentialMsg m = true →
      retryLoop cap maxRetries attempt (fuel + 1)
        = ⟨"Authentication Error: Your AWS session may have expired. Please refresh your credentials. Details: " ++ m,
           1, []⟩) ∧
    (∀ (stage : String) (p : RunParams) (st : PipelineState) (m : String),
      p.agentAvailable stage = true → p.credsValid = true →
      p.cap stage 0 = Attempt.err m → isCredentialMsg m = true →
      lookupEntry stage (runSpecialistBody stage p st).state.ctx.agent_data
        = some ⟨"Authentication Error: Your AWS session may have expired. Please refresh your credentials. Details: " ++ m,
                st.ctx.clock, "completed"⟩) := by
  have h1 : ∀ (cap : Nat → Attempt) (maxRetries attempt fuel : Nat) (m : String),
      cap attempt = Attempt.err m → isCredentialMsg m = true →
      retryLoop cap maxRetries attempt (fuel + 1)
        = ⟨"Authentication Error: Your AWS session may have expired. Please refresh your credentials. Details: " ++ m,
           1, []⟩ := by
    intro cap maxRetries attempt fuel m hcap hcred
    rw [retryLoop_step, hcap]
    simp [hcred]
  refine ⟨h1, ?_⟩
  intro stage p st m hav hcreds hcap hcred
  unfold runSpecialistBody
  have hcall : safe_model_call p.credsValid (p.cap stage) 3
      = ⟨"Authentication Error: Your AWS session may have expired. Please refresh your credentials. Details: " ++ m,
         1, []⟩ := by
    unfold safe_model_call
    rw [hcreds]
    simpa using h1 (p.cap stage) 3 0 2 m hcap hcred
  simp only [hav, if_true, hcall]
  simp [addAgentResultS, UnderwritingContext.add_agent_result,
    lookupEntry_setEntry_self]

/-- C4 (witness): a concrete credential error at attempt 0 halts retries at
once and the medical stage records it as a completed analysis. -/
theorem credential_error_degrades_stage_witness :
    retryLoop capCred 3 0 3
      = ⟨"Authentication Error: Your AWS session may have expired. Please refresh your credentials. Details: expired token",
         1, []⟩ ∧
    lookupEntry "medical_risk_assessment"
        (runSpecialistBody "medical_risk_assessment" pCred st0).state.ctx.agent_data
      = some ⟨"Authentication Error: Your AWS session may have expired. Please refresh your credentials. Details: expired token",
              0, "completed"⟩ :=
  ⟨credential_error_degrades_stage.1 capCred 3 0 2 "expired token" rfl (by decide),
   credential_error_degrades_stage.2 "medical_risk_assessment" pCred st0
     "expired token" rfl rfl rfl (by decide)⟩

/-- C5: the retry policy of `safe_model_call`: (1) at most 3 capability
attempts; (2) a result that is empty or at most the 10-character minimum
length (the hypothesis `r.length ≤ 10` covers the empty string, whose
length is 0) sleeps the fixed 1-second delay before a non-final attempt and
retries, consuming an attempt; (3) on the last attempt a short non-empty
result is returned as the degraded result rather than failing; (4) on the
last attempt an empty result is replaced by the substitute string
"No response received from model" (line 141), again without failing;
(5) a rate-limiting error sleeps `5 * attemptNumber` seconds and retries,
consuming an attempt; (6) when every attempt raises a generic error, the
call returns the descriptive failure string (with the fixed 2-second
backoffs in between) instead of raising. -/
theorem retry_policy_spec :
    (∀ (credsValid : Bool) (cap : Nat → Attempt),
      (safe_model_call credsValid cap 3).calls ≤ 3) ∧
    (∀ (cap : Nat → Attempt) (attempt fuel : Nat) (r : String),
      cap attempt = Attempt.ok r → r.length ≤ 10 → attempt < 2 →
      retryLoop cap 3 attempt (fuel + 1)
        = ⟨(retryLoop cap 3 (attempt + 1) fuel).result,
           (retryLoop cap 3 (attempt + 1) fuel).calls + 1,
           1 :: (retryLoop cap 3 (attempt + 1) fuel).sleeps⟩) ∧
    (∀ (cap : Nat → Attempt) (fuel : Nat) (r : String),
      cap 2 = Attempt.ok r → r ≠ "" → r.length ≤ 10 →
      retryLoop cap 3 2 (fuel + 1) = ⟨r, 1, []⟩) ∧
    (∀ (cap : Nat → Attempt) (fuel : Nat),
      cap 2 = Attempt.ok "" →
      retryLoop cap 3 2 (fuel + 1) = ⟨"No response received from model", 1, []⟩) ∧
    (∀ (cap : Nat → Attempt) (attempt fuel : Nat) (m : String),
      cap attempt = Attempt.err m →
      isCredentialMsg m = false → isRateLimitMsg m = true →
      retryLoop cap 3 attempt (fuel + 1)
        = ⟨(retryLoop cap 3 (attempt + 1) fuel).result,
           (retryLoop cap 3 (attempt + 1) fuel).calls + 1,
           5 * (attempt + 1) :: (retryLoop cap 3 (attempt + 1) fuel).sleeps⟩) ∧
    (∀ (cap : Nat → Attempt) (m0 m1 m2 : String),
      cap 0 = Attempt.err m0 → cap 1 = Attempt.err m1 → cap 2 = Attempt.err m2 →
      (∀ m ∈ [m0, m1, m2], isCredentialMsg m = false ∧ isRateLimitMsg m = false
        ∧ isNotFoundMsg m = false) →
      safe_model_call true cap 3
        = ⟨"Model call failed after 3 attempts. Final error: " ++ m2, 3, [2, 2]⟩) := by
  refine ⟨?_, ?_, ?_, ?_, ?_, ?_⟩
  · intro credsValid cap
    unfold safe_model_call
    by_cases h : credsValid = true
    · simp only [h, if_true]
      exact retryLoop_calls_le cap 3 3 0
    · simp [h]
  · intro cap attempt fuel r hcap hlen hlt
    have hcond : ¬ (r ≠ "" ∧ 10 < r.length) := by
      rintro ⟨-, h⟩
      omega
    have hlt2 : attempt < 3 - 1 := by omega
    rw [retryLoop_step, hcap]
    simp [hcond, hlt2]
  · intro cap fuel r hcap hne hlen
    have hcond : ¬ (r ≠ "" ∧ 10 < r.length) := by
      rintro ⟨-, h⟩
      omega
    have hnlt : ¬ (2 < 3 - 1) := by omega
    rw [retryLoop_step, hcap]
    simp [hcond, hnlt, hne]
  · intro cap fuel hcap
    have hnlt : ¬ (2 < 3 - 1) := by omega
    rw [retryLoop_step, hcap]
    simp [hnlt]
  · intro cap attempt fuel m hcap hcred hrate
    rw [retryLoop_step, hcap]
    simp [hcred, hrate]
  · intro cap m0 m1 m2 h0 h1 h2 hgen
    have g0 := hgen m0 (by simp)
    have g1 := hgen m1 (by simp)
    have g2 := hgen m2 (by simp)
    have hns : safe_model_call true cap 3 = retryLoop cap 3 0 3 := by
      simp [safe_model_call]
    rw [hns, retryLoop_step cap 3 0 2, h0]
    simp only [g0.1, g0.2.1, g0.2.2, Bool.false_eq_true, if_false]
    rw [retryLoop_step cap 3 1 1, h1]
    simp only [g1.1, g1.2.1, g1.2.2, Bool.false_eq_true, if_false]
    rw [retryLoop_step cap 3 2 0, h2]
    simp only [g2.1, g2.2.1, g2.2.2, Bool.false_eq_true, if_false]
    norm_num
    congr 1

/-- C5 (witness): concrete empty-result, short-result, rate-limited and
always-failing capabilities exercising each hypothesis of the retry-policy
theorem. -/
theorem retry_policy_spec_witness :
    retryLoop capEmpty 3 0 3
      = ⟨(retryLoop capEmpty 3 1 2).result, (retryLoop capEmpty 3 1 2).calls + 1,
         1 :: (retryLoop capEmpty 3 1 2).sleeps⟩ ∧
    retryLoop capShort 3 0 3
      = ⟨(retryLoop capShort 3 1 2).result, (retryLoop capShort 3 1 2).calls + 1,
         1 :: (retryLoop capShort 3 1 2).sleeps⟩ ∧
    retryLoop capShort 3 2 1 = ⟨"short", 1, []⟩ ∧
    retryLoop capEmpty 3 2 1 = ⟨"No response received from model", 1, []⟩ ∧
    retryLoop capRate 3 0 3
      = ⟨(retryLoop capRate 3 1 2).result, (retryLoop capRate 3 1 2).calls + 1,
         5 * (0 + 1) :: (retryLoop capRate 3 1 2).sleeps⟩ ∧
    safe_model_call true capGeneric 3
      = ⟨"Model call failed after 3 attempts. Final error: unexpected upstream outage",
         3, [2, 2]⟩ :=
  ⟨retry_policy_spec.2.1 capEmpty 0 2 "" rfl (by decide) (by decide),
   retry_policy_spec.2.1 capShort 0 2 "short" rfl (by decide) (by decide),
   retry_policy_spec.2.2.1 capShort 1 "short" rfl (by decide) (by decide),
   retry_policy_spec.2.2.2.1 capEmpty 1 rfl,
   retry_policy_spec.2.2.2.2.1 capRate 0 2 "throttling detected" rfl (by decide) (by decide),
   retry_policy_spec.2.2.2.2.2 capGeneric _ _ _ rfl rfl rfl (by decide)⟩

/-- C9: when fewer than 7 agents have recorded results (and the summary is
not yet processed), `summary_generation_tool` returns exactly the string
"Insufficient specialist analyses available for summary generation" with the
state unchanged and zero capability invocations, and a status document saved
from this context reads "in_progress", so the session's overall status
cannot reach "completed" in that run. -/
theorem insufficient_analyses_precondition (p : RunParams) (st : PipelineState)
    (s : String) (hs : p.sessionId = some s)
    (hnp : st.ctx.has_processed "summary_generation" = false)
    (hlen : st.ctx.agent_data.length < 7) :
    summary_generation_tool p st
      = ⟨"Insufficient specialist analyses available for summary generation", st, 0, []⟩ ∧
    st.ctx.save_agent_status.status = "in_progress" := by
  constructor
  · unfold summary_generation_tool
    rw [hs]
    have h2 : st.ctx.get_all_insights.length < 7 := by
      unfold UnderwritingContext.get_all_insights
      rw [List.length_map]
      omega
    simp [hnp, h2]
  · have hnotmem : "summary_generation" ∉ st.ctx.processed_agents := by
      intro hmem
      have : st.ctx.processed_agents.contains "summary_generation" = true := by
        simpa using hmem
      rw [show st.ctx.has_processed "summary_generation"
        = st.ctx.processed_agents.contains "summary_generation" from rfl, this] at hnp
      exact Bool.true_eq_false.mp hnp
    simp [UnderwritingContext.save_agent_status, hnotmem]

/-- C9 (witness): the insufficiency guard at the post-intake state, which
has one recorded analysis. -/
theorem insufficient_analyses_precondition_witness :
    summary_generation_tool pC10 stIntakeDone
      = ⟨"Insufficient specialist analyses available for summary generation",
         stIntakeDone, 0, []⟩ ∧
    stIntakeDone.ctx.save_agent_status.status = "in_progress" :=
  insufficient_analyses_precondition pC10 stIntakeDone sidW rfl
    (by decide) (by decide)

/-- C7 (counterexample): when the stored status object exists but holds
corrupt (unparseable) data, `read_agent_status_from_s3` raises (the
`json.loads` failure is not a `ClientError` and propagates) instead of
returning the synthetic all-pending initializing default — refuting the
claim for the "corrupt" case. -/
theorem corrupt_status_read_raises :
    read_agent_status_from_s3 sidW S3Stored.corrupt = Except.error "JSONDecodeError" ∧
    read_agent_status_from_s3 sidW S3Stored.corrupt
      ≠ Except.ok (defaultInitializingDoc sidW) := by
  refine ⟨rfl, fun h => ?_⟩
  rw [show read_agent_status_from_s3 sidW S3Stored.corrupt
    = Except.error "JSONDecodeError" from rfl] at h
  exact Except.noConfusion h

/-- C7 (amended): only when the stored object is missing (NoSuchKey) does
the status loader return the synthetic default state, whose overall status
is "initializing" and in which each of the 8 canonical stages has a pending
entry; corrupt data and other client errors raise instead. -/
theorem missing_status_read_returns_default (sid : String) :
    read_agent_status_from_s3 sid S3Stored.missing
      = Except.ok (defaultInitializingDoc sid) ∧
    (defaultInitializingDoc sid).status = "initializing" ∧
    (∀ n ∈ AGENT_WORKFLOW_SEQUENCE,
      lookupEntry n (defaultInitializingDoc sid).agents = some pendingEntry) ∧
    pendingEntry.status = "pending" := by
  refine ⟨rfl, rfl, ?_, rfl⟩
  intro n hn
  have hag : (defaultInitializingDoc sid).agents
      = AGENT_WORKFLOW_SEQUENCE.map fun n2 => (n2, pendingEntry) := rfl
  rw [hag]
  simp only [AGENT_WORKFLOW_SEQUENCE, List.mem_cons, List.not_mem_nil, or_false] at hn
  rcases hn with rfl | rfl | rfl | rfl | rfl | rfl | rfl | rfl <;> decide

/-- C7 (witness for the amended theorem): the synthetic default at the
concrete session id, evaluated at the first stage. -/
theorem missing_status_read_returns_default_witness :
    read_agent_status_from_s3 sidW S3Stored.missing
      = Except.ok (defaultInitializingDoc sidW) ∧
    (defaultInitializingDoc sidW).status = "initializing" ∧
    lookupEntry "data_intake" (defaultInitializingDoc sidW).agents = some pendingEntry :=
  ⟨(missing_status_read_returns_default sidW).1,
   (missing_status_read_returns_default sidW).2.1,
   (missing_status_read_returns_default sidW).2.2.1 "data_intake" (by decide)⟩

/-- C6 (counterexample): `update_processing_status` sets the overall status
field unconditionally; applied (as `_process_s3_file` does after any
orchestrator return) with "completed" to the freshly initialized document,
it persists a document whose status is "completed" while the terminal
`summary_generation` stage is still "pending" — violating the
completed-iff-terminal invariant. -/
theorem status_writer_breaks_completed_iff_terminal :
    (update_processing_status sidW (some (initialStatusDoc sidW))
        "completed" "All agents completed successfully" "partial run summary").status
      = "completed" ∧
    lookupCompleted "summary_generation"
        (update_processing_status sidW (some (initialStatusDoc sidW))
          "completed" "All agents completed successfully" "partial run summary").agents
      = false := by
  refine ⟨by decide, by decide⟩

/-- C6 (amended): the completed-iff-terminal invariant does hold for every
document written by `save_agent_status` from a reachable context (one whose
recorded results and processed set agree, as `add_agent_result` maintains):
its status is "completed" iff the terminal `summary_generation` stage has a
completed `StageResult`.  (The other durable-status writer,
`update_processing_status`, does not preserve the invariant — see the
counterexample.) -/
theorem save_agent_status_completed_iff_terminal (ctx : UnderwritingContext)
    (hinv : CtxInv ctx) :
    ctx.save_agent_status.status = "completed"
      ↔ lookupCompleted "summary_generation" ctx.save_agent_status.agents = true := by
  have hag : ctx.save_agent_status.agents = ctx.agent_data := rfl
  rw [hag]
  constructor
  · intro h
    by_cases hc : "summary_generation" ∈ ctx.processed_agents
    · exact hinv.2 _ hc
    · exfalso
      have hst : ctx.save_agent_status.status = "in_progress" := by
        simp [UnderwritingContext.save_agent_status, hc]
      rw [hst] at h
      exact absurd h (by decide)
  · intro h
    obtain ⟨r, hr, hrs⟩ : ∃ r, lookupEntry "summary_generation" ctx.agent_data = some r
        ∧ r.status = "completed" := by
      unfold lookupCompleted at h
      cases hl : lookupEntry "summary_generation" ctx.agent_data with
      | none => rw [hl] at h; simp at h
      | some r =>
        rw [hl] at h
        exact ⟨r, rfl, by simpa using h⟩
    have hmem := lookupEntry_mem hr
    have hproc := (hinv.1 _ hmem).2
    exact save_agent_status_completed ctx (by simpa using hproc)

/-- C6 (witness for the amended theorem): the invariant instance at a
reachable context with a completed terminal stage. -/
theorem save_agent_status_completed_iff_terminal_witness :
    CtxInv (addAgentResultS stIntakeDone "summary_generation" "terminal summary body").ctx ∧
    ((addAgentResultS stIntakeDone "summary_generation" "terminal summary body").ctx.save_agent_status.status
        = "completed"
      ↔ lookupCompleted "summary_generation"
          (addAgentResultS stIntakeDone "summary_generation" "terminal summary body").ctx.save_agent_status.agents
        = true) :=
  ⟨by unfold CtxInv; decide,
   save_agent_status_completed_iff_terminal
     (addAgentResultS stIntakeDone "summary_generation" "terminal summary body").ctx
     (by unfold CtxInv; decide)⟩

/-- C8 (counterexample): a full sequential run in which the summary
capability fails generically leaves a completed status document whose
terminal analysis ("Model call failed after 3 attempts. Final error:
upstream outage") contains the failure-indicator keyword, yet — because the
text is shorter than the 100-character minimum checked BEFORE the keyword
test — the post-pipeline policy generation returns status "error", not
"declined", and records no policy_generation outcome: the claim fails as
stated. -/
theorem short_decline_summary_yields_error :
    ((manual_process_underwriting pC8 st0).2.store.map fun d => d.status)
      = some "completed" ∧
    ((manual_process_underwriting pC8 st0).2.store.map fun d =>
        containsDeclineKeyword (d.final_summary.getD "")) = some true ∧
    (generate_health_insurance_policy pC8
        (manual_process_underwriting pC8 st0).2.store).status = "error" ∧
    (generate_health_insurance_policy pC8
        (manual_process_underwriting pC8 st0).2.store).status ≠ "declined" ∧
    (manual_process_underwriting pC8 st0).2.ctx.has_processed "policy_generation"
      = false := by
  refine ⟨by decide, by decide, by decide, by decide, by decide⟩

/-- C8 (amended): when the stored overall status is "completed" and the
terminal analysis is at least 100 characters long and contains a
decline/denial/failure keyword, the policy generator returns exactly the
"declined" outcome with no extraction call, no rendered document and no
upload attempt, and `policy_generation_tool` then records the declined
outcome ("Underwriting declined - policy not generated") as a completed
`policy_generation` entry; for shorter terminal analyses the hook returns an
"error" outcome instead even when the keywords are present. -/
theorem decline_keywords_skip_policy_generation (p : RunParams) (d : StatusDoc)
    (hst : d.status = "completed")
    (hlen : 100 ≤ (d.final_summary.getD "").length)
    (hkw : containsDeclineKeyword (d.final_summary.getD "") = true) :
    generate_health_insurance_policy p (some d)
      = ⟨"declined", "", false, false, false, some d⟩ ∧
    (∀ (st : PipelineState) (s : String), p.sessionId = some s →
      st.store = some d →
      st.ctx.has_processed "summary_generation" = true →
      (policy_generation_tool p st).output
        = "Policy generation skipped: Underwriting declined" ∧
      lookupEntry "policy_generation" (policy_generation_tool p st).state.ctx.agent_data
        = some ⟨"Underwriting declined - policy not generated", st.ctx.clock, "completed"⟩) := by
  have hgen : generate_health_insurance_policy p (some d)
      = ⟨"declined", "", false, false, false, some d⟩ := by
    have hcond : ¬ (d.status ≠ "completed") := by simp [hst]
    have hfs : ¬ (d.final_summary.getD "" = "" ∨ (d.final_summary.getD "").length < 100) := by
      rintro (h | h)
      · rw [h] at hlen
        simp at hlen
      · omega
    unfold generate_health_insurance_policy
    simp [hcond, hfs, hkw]
  refine ⟨hgen, ?_⟩
  intro st s hs hstore hp
  unfold policy_generation_tool
  rw [hs]
  simp only [hp, not_true_eq_false, Bool.true_eq_false, if_false, hstore, hgen]
  simp only [if_true]
  exact ⟨rfl, lookupEntry_setEntry_self _ _ _⟩

set_option maxRecDepth 100000 in
/-- C8 (witness for the amended theorem): a 100+-character declined summary
in a completed status document yields the declined outcome and the recorded
declined entry. -/
theorem decline_keywords_skip_policy_generation_witness :
    generate_health_insurance_policy pC10 (some declinedDoc)
      = ⟨"declined", "", false, false, false, some declinedDoc⟩ ∧
    (policy_generation_tool pC10 stC8W).output
      = "Policy generation skipped: Underwriting declined" ∧
    lookupEntry "policy_generation" (policy_generation_tool pC10 stC8W).state.ctx.agent_data
      = some ⟨"Underwriting declined - policy not generated", stC8W.ctx.clock, "completed"⟩ :=
  ⟨(decline_keywords_skip_policy_generation pC10 declinedDoc rfl (by decide) (by decide)).1,
   ((decline_keywords_skip_policy_generation pC10 declinedDoc rfl (by decide) (by decide)).2
     stC8W sidW rfl rfl (by decide)).1,
   ((decline_keywords_skip_policy_generation pC10 declinedDoc rfl (by decide) (by decide)).2
     stC8W sidW rfl rfl (by decide)).2⟩

set_option maxRecDepth 100000 in
/-- C10: every status document written by `save_agent_status` carries
`completed_agents` equal to the number of processed agents (which includes
`policy_generation` once recorded), `pending_agents = 8 - completed_agents`
and `completion_percentage = completed_agents / 8 * 100` with no clamping;
in the successful concrete run, after policy generation is recorded, the
final persisted document reports completed_agents = 9, pending_agents = -1
and completion_percentage = 112.5. -/
theorem processing_summary_arithmetic :
    (∀ ctx : UnderwritingContext,
      ctx.save_agent_status.processing_summary
        = some ⟨8, ctx.processed_agents.length,
                (8 : Int) - (ctx.processed_agents.length : Int),
                ((ctx.processed_agents.length : ℚ) / 8) * 100⟩) ∧
    (manual_process_underwriting pC10 st0).2.ctx.processed_agents.length = 9 ∧
    ((manual_process_underwriting pC10 st0).2.store.map fun d => d.processing_summary)
      = some (some (mkProcessingSummary 9)) ∧
    mkProcessingSummary 9 = ⟨8, 9, -1, 112.5⟩ := by
  refine ⟨fun ctx => rfl, by decide, rfl, ?_⟩
  simp only [mkProcessingSummary, ProcessingSummary.mk.injEq]
  norm_num

/-- C2: even when one stage's capability call raises a non-credential error
on every attempt, a sequential pipeline run (`manual_process_underwriting`
from a fresh session) still reaches the terminal `summary_generation` stage:
all 7 preceding stages and the terminal stage end with a recorded completed
`StageResult`, and the persisted status document reads "completed"
overall. -/
theorem never_halt_guarantee (p : RunParams) (s sid c failStage : String)
    (m : Nat → String) (store0 : Option StatusDoc)
    (hs : p.sessionId = some s) (hd : p.docAnalysis = Except.ok c)
    (hsid : sid ≠ "")
    (hfail : failStage ∈ AGENT_WORKFLOW_SEQUENCE)
    (hcap : ∀ i, p.cap failStage i = Attempt.err (m i))
    (hm : ∀ i, isCredentialMsg (m i) = false) :
    (∀ n ∈ specialistStages,
      lookupCompleted n
        (manual_process_underwriting p ⟨freshContext sid, store0⟩).2.ctx.agent_data = true) ∧
    lookupCompleted "summary_generation"
      (manual_process_underwriting p ⟨freshContext sid, store0⟩).2.ctx.agent_data = true ∧
    (∃ d, (manual_process_underwriting p ⟨freshContext sid, store0⟩).2.store = some d
      ∧ d.status = "completed") := by
  obtain ⟨r1, r2, r3, r4⟩ := runStages_spec p s c hs hd specialistStages
    ⟨freshContext sid, store0⟩
    (by decide) (fun n _ => rfl) (by decide) (Or.inl rfl)
  have hnp7 : (runStages p specialistStages ⟨freshContext sid, store0⟩).ctx.has_processed
      "summary_generation" = false :=
    r3 "summary_generation" rfl (by decide)
  have hlen7 : 7 ≤ (runStages p specialistStages
      ⟨freshContext sid, store0⟩).ctx.agent_data.length := by
    have hsubset : specialistStages ⊆
        (runStages p specialistStages ⟨freshContext sid, store0⟩).ctx.agent_data.map Prod.fst :=
      fun n hn => mem_keys_of_lookupCompleted (r1 n hn)
    have hnd : specialistStages.Nodup := by decide
    have hle := List.Subperm.length_le (List.subperm_of_subset hnd hsubset)
    simpa using hle
  obtain ⟨a, hsummary⟩ := summary_tool_state p
    (runStages p specialistStages ⟨freshContext sid, store0⟩) s hs hnp7 hlen7
  have hp8 : (addAgentResultS (runStages p specialistStages ⟨freshContext sid, store0⟩)
      "summary_generation" a).ctx.has_processed "summary_generation" = true := by
    rw [has_processed_addAgentResultS]
    simp
  have hsid7 : (runStages p specialistStages ⟨freshContext sid, store0⟩).ctx.session_id ≠ "" := by
    rw [r4]
    exact hsid
  have hsid8 : (addAgentResultS (runStages p specialistStages ⟨freshContext sid, store0⟩)
      "summary_generation" a).ctx.session_id ≠ "" := by
    rw [addAgentResultS_session_id]
    exact hsid7
  have hstore8 : (addAgentResultS (runStages p specialistStages ⟨freshContext sid, store0⟩)
      "summary_generation" a).store
      = some ((runStages p specialistStages ⟨freshContext sid, store0⟩).ctx.add_agent_result
          "summary_generation" a).save_agent_status :=
    addAgentResultS_store _ _ _ hsid7
  have hdoc8 : ((runStages p specialistStages ⟨freshContext sid, store0⟩).ctx.add_agent_result
      "summary_generation" a).save_agent_status.status = "completed" := by
    apply save_agent_status_completed
    show (insertName (runStages p specialistStages
      ⟨freshContext sid, store0⟩).ctx.processed_agents "summary_generation").contains
      "summary_generation" = true
    rw [contains_insertName]
    simp
  obtain ⟨pc1, pc2, pc3⟩ := policy_tool_preserves p
    (addAgentResultS (runStages p specialistStages ⟨freshContext sid, store0⟩)
      "summary_generation" a) s hs hp8 hsid8 _ hstore8 hdoc8
  have hfin : (manual_process_underwriting p ⟨freshContext sid, store0⟩).2
      = (policy_generation_tool p
          (addAgentResultS (runStages p specialistStages ⟨freshContext sid, store0⟩)
            "summary_generation" a)).state :=
    hsummary
  have hL8 : ∀ n ∈ specialistStages,
      lookupCompleted n (addAgentResultS (runStages p specialistStages
        ⟨freshContext sid, store0⟩) "summary_generation" a).ctx.agent_data = true := by
    intro n hn
    have hne : n ≠ "summary_generation" :=
      (by decide : ∀ n2 ∈ specialistStages, n2 ≠ "summary_generation") n hn
    rw [lookupCompleted_addAgentResultS_other _ _ _ _ hne]
    exact r1 n hn
  have hLsum8 : lookupCompleted "summary_generation"
      (addAgentResultS (runStages p specialistStages ⟨freshContext sid, store0⟩)
        "summary_generation" a).ctx.agent_data = true :=
    lookupCompleted_addAgentResultS_self _ _ _
  refine ⟨?_, ?_, ?_⟩
  · intro n hn
    rw [hfin]
    exact pc2 n (hL8 n hn)
  · rw [hfin]
    exact pc2 _ hLsum8
  · rw [hfin]
    exact pc1

set_option maxRecDepth 100000 in
/-- C2 (witness): the concrete run in which the financial capability raises
a generic error on every attempt still completes all 8 stages and persists a
completed status document. -/
theorem never_halt_guarantee_witness :
    (∀ n ∈ specialistStages,
      lookupCompleted n
        (manual_process_underwriting pC2 ⟨freshContext sidW, none⟩).2.ctx.agent_data = true) ∧
    lookupCompleted "summary_generation"
      (manual_process_underwriting pC2 ⟨freshContext sidW, none⟩).2.ctx.agent_data = true ∧
    (∃ d, (manual_process_underwriting pC2 ⟨freshContext sidW, none⟩).2.store = some d
      ∧ d.status = "completed") := by
  have hone : isCredentialMsg "upstream outage" = false := by decide
  exact never_halt_guarantee pC2 sidW sidW
    "=== DOCUMENT: application.pdf === applicant details text" "financial"
    (fun _ => "upstream outage") none rfl rfl (by decide) (by decide)
    (fun _ => rfl) (fun _ => hone)

end NovaAgent
